import Mathlib

/-!
Shallow embedding of the polytraderai trading pipeline
(src/trade_tools.py, src/trader.py, src/analysts.py, src/graph.py,
src/app/models.py, src/app/data_fetchers.py, src/data_fetchers.py).

Pure functions of the source become Lean functions; the external
capabilities (CLOB venue, LLM completions) are passed in as explicit
parameters, and raised Python exceptions are modelled with Except.
Python floats are modelled as rationals; Python dicts/values that the
code inspects are modelled by the small PyVal type below.
-/

/-- Leading-segment test on character lists: startsWithChars pat s is true
when pat begins s (models str.startswith at the list-of-characters level). -/
def startsWithChars : List Char → List Char → Bool
  | [], _ => true
  | _ :: _, [] => false
  | c :: cs, d :: ds => c == d && startsWithChars cs ds

/-- hasSub pat s is true when pat occurs contiguously inside s
(models the Python substring operator: pat in s). -/
def hasSub (pat : List Char) : List Char → Bool
  | [] => startsWithChars pat []
  | c :: rest => startsWithChars pat (c :: rest) || hasSub pat rest

/-- Python substring containment on strings. -/
def strContains (s pat : String) : Bool :=
  hasSub pat.toList s.toList

/-- ASCII lowercasing of one character: models str.lower on the
characters the code ever compares (TRADE_EXECUTION values are ASCII). -/
def charLower (c : Char) : Char :=
  if 65 ≤ c.toNat ∧ c.toNat ≤ 90 then Char.ofNat (c.toNat + 32) else c

/-- Python str.lower restricted to ASCII case mapping. -/
def pyLower (s : String) : String :=
  ⟨s.data.map charLower⟩

/-- Model of the Python values the trade code passes around and inspects:
strings, dicts (association lists keyed by strings) and OrderResponse
objects (pydantic model with a status string and a response value). -/
inductive PyVal where
  | pstr : String → PyVal
  | pdict : List (String × PyVal) → PyVal
  | pOrderResponse : String → PyVal → PyVal
deriving BEq

/-- Python dict.get on a PyVal: some value when the receiver is a dict
containing the key, none otherwise (get on a dict without the key
returns None; the code guards non-dicts with isinstance). -/
def PyVal.get : PyVal → String → Option PyVal
  | .pdict entries, key => (entries.find? (fun e => e.1 == key)).map (·.2)
  | _, _ => none

/-- Python isinstance(resp, dict). -/
def PyVal.isDict : PyVal → Bool
  | .pdict _ => true
  | _ => false

/-- OrderArgs from py_clob_client: price, size, side, token_id
(src/app/models.py uses it inside OrderDetails). -/
structure OrderArgs where
  price : ℚ
  size : ℚ
  side : String
  token_id : String
deriving DecidableEq

/-- OrderDetails (src/app/models.py): wraps the venue order arguments. -/
structure OrderDetails where
  order_args : OrderArgs
deriving DecidableEq

/-- OrderResponse (src/app/models.py): status string plus the raw response. -/
structure OrderResponse where
  status : String
  response : PyVal

/-- Recommendation (src/app/models.py lines 120-137): pydantic model with
outcome_index constrained to [0,1] and conviction constrained to [0,100];
fields are stored as integers. -/
structure Recommendation where
  outcome_index : Int
  conviction : Int
  reasoning : String
deriving DecidableEq

/-- Pydantic validation of a Recommendation: construction succeeds only
when outcome_index is within [0,1] and conviction within [0,100]
(the ge/le constraints on the Fields); otherwise a ValidationError is
raised, modelled by none. -/
def Recommendation.validate (outcome_index conviction : Int) (reasoning : String) :
    Option Recommendation :=
  if 0 ≤ outcome_index ∧ outcome_index ≤ 1 ∧ 0 ≤ conviction ∧ conviction ≤ 100 then
    some ⟨outcome_index, conviction, reasoning⟩
  else
    none

/-- Market (src/app/models.py): the fields read by the functions modelled
here (the remaining metadata fields of the pydantic model are never
inspected by the trade, routing or filtering code under verification). -/
structure Market where
  id : String
  question : String
  description : String
  condition_id : String
  outcomes : List String
  outcome_prices : List ℚ
  clob_token_ids : List String
  enable_order_book : Bool
deriving DecidableEq

/-- TraderState (src/app/models.py): state consumed by trade_configuration
and trade_execution. -/
structure TraderState where
  market : Market
  recommendation : Recommendation
  balances : List (String × ℚ)
  order_details : OrderDetails

/-- The TRADE_EXECUTION environment variable as _trade_execute reads it:
none models an unset variable (os.getenv returns None). -/
def tradeExecutionEnabled : Option String → Bool
  | some v => pyLower v == "true"
  | none => false

/-- The dict returned by _trade_execute when trade execution is disabled:
a dict holding an OrderResponse with status success and the message
Trade execution disabled. -/
def disabledTradeDict : PyVal :=
  .pdict [("order_response",
    .pOrderResponse "success" (.pdict [("message", .pstr "Trade execution disabled")]))]

/-- Embedding of _trade_execute (src/trade_tools.py lines 31-43).
The venue parameter is the outcome of client.create_order plus
client.post_order when they are reached: ok carries the posted response,
error carries a raised exception. When TRADE_EXECUTION is unset,
os.getenv returns None and .lower() raises an AttributeError before any
order is created, signed or posted. -/
def _trade_execute : Option String → Except String PyVal → Except String PyVal
  | none, _ => .error "AttributeError: NoneType object has no attribute lower"
  | some v, venue =>
    if pyLower v == "true" then
      venue
    else
      .ok disabledTradeDict

/-- Number of order-submission calls (client.post_order) one execution of
_trade_execute issues: exactly one when TRADE_EXECUTION lowercased equals
true, zero otherwise (unset aborts before the venue branch). -/
def tradeExecuteVenueCalls (env : Option String) : Nat :=
  if tradeExecutionEnabled env then 1 else 0

/-- Embedding of trade_execution (src/trade_tools.py lines 46-88).
The conviction gate compares against 75; on the execution path the local
status computed from resp.get is only printed, and the returned
OrderResponse always carries status success; a raised exception is the
only path to a returned status failure. -/
def trade_execution (s : TraderState) (env : Option String)
    (venue : Except String PyVal) : OrderResponse :=
  if 75 ≤ s.recommendation.conviction then
    match _trade_execute env venue with
    | .ok resp =>
      OrderResponse.mk "success" resp
    | .error e =>
      OrderResponse.mk "failure" (.pdict [("failure", .pstr e)])
  else
    OrderResponse.mk "success" (.pdict [("message", .pstr "Low conviction")])

/-- Whether an optional dict value is the given Python string (models the
comparison resp.get of status against the string failure). -/
def pyValIsStr : Option PyVal → String → Bool
  | some (.pstr s), t => s == t
  | _, _ => false

/-- The status string trade_execution computes locally on the execution
path (printed but never stored in the returned OrderResponse). -/
def localPrintedStatus (resp : PyVal) : String :=
  if resp.isDict && pyValIsStr (resp.get "status") "failure" then
    "failure"
  else
    "success"

/-- Number of order-submission calls one execution of the trade_execution
node issues: _trade_execute is reached only when conviction is at least
75, and it posts only when TRADE_EXECUTION is enabled. -/
def venueSubmissionCalls (s : TraderState) (env : Option String) : Nat :=
  if 75 ≤ s.recommendation.conviction then tradeExecuteVenueCalls env else 0

/-- Crash-resume scenario over the SqliteSaver checkpointing of
get_full_graph (src/graph.py lines 75-80): langgraph persists a node
result only after the node returns, and trade_execution writes nothing
to state before calling _trade_execute, so a crash during submission
leaves the checkpoint at the pre-node TraderState s; an explicit resume
re-executes trade_execution from s. The total number of submission
calls across the crashed attempt and the resumed attempt is therefore
the per-execution count, twice. -/
def venueCallsAcrossCrashResume (s : TraderState) (env : Option String) : Nat :=
  venueSubmissionCalls s env + venueSubmissionCalls s env

/-- Embedding of trade_configuration (src/trader.py lines 72-95): the node
builds a prompt from the state and returns, as the order details, the
OrderDetails object produced by the external LLM structured-output call
(claude37.with_structured_output(OrderDetails)); the llmOrder parameter
is that external response. No validation is applied to it. -/
def trade_configuration (s : TraderState) (llmOrder : OrderDetails) : OrderDetails :=
  let _instructions := s.market.question
  llmOrder

/-- Embedding of write_recommendation (src/trader.py lines 138-158): the
external structured-output call proposes outcome_index, conviction and
reasoning; pydantic validation of the Recommendation model accepts or
rejects them (a ValidationError, modelled by none, fails the run rather
than propagating out-of-range values into state). -/
def write_recommendation (llmOut : Int × Int × String) : Option Recommendation :=
  Recommendation.validate llmOut.1 llmOut.2.1 llmOut.2.2

/-- A langchain message as the interview code sees it: whether it is an
AIMessage (questions and expert answers are; the seed HumanMessage is
not), its optional name attribute (generate_answer sets name to expert),
and its content text. -/
structure Message where
  isAI : Bool
  name : Option String
  content : String

/-- The count route_messages computes (src/analysts.py lines 227-229):
AIMessages whose name equals expert. -/
def countExpertAnswers (ms : List Message) : Nat :=
  (ms.filter (fun m => m.isAI && m.name == some "expert")).length

/-- messages[-2] as route_messages reads it (src/analysts.py line 237):
the second message from the end; none models the IndexError raised when
fewer than two messages exist. -/
def lastQuestion? (ms : List Message) : Option Message :=
  match ms.reverse with
  | _ :: q :: _ => some q
  | _ => none

/-- The fixed termination phrase route_messages looks for in the last
question (src/analysts.py line 239). -/
def terminationPhrase : String :=
  "Thank you so much for your help"

/-- Embedding of route_messages (src/analysts.py lines 219-241) with the
name parameter at its default value expert. The max_num_turns state key
defaults to 2 via state.get. Returns none when reading messages[-2]
would raise an IndexError. -/
def route_messages (ms : List Message) (maxNumTurns : Option Nat) : Option String :=
  if maxNumTurns.getD 2 ≤ countExpertAnswers ms then
    some "save_interview"
  else
    match lastQuestion? ms with
    | none => none
    | some q =>
      if strContains q.content terminationPhrase then
        some "save_interview"
      else
        some "ask_question"

/-- One pass through ask_question, search_web, answer_question of the
interview graph (src/graph.py lines 39-41): the analyst question (an
AIMessage with no name) and the expert answer (an AIMessage named
expert) are appended to the transcript; their contents come from the
external completion calls and are supplied by the q and a oracles. -/
def interviewPair (ms : List Message) (q a : String) : List Message :=
  ms ++ [⟨true, none, q⟩, ⟨true, some "expert", a⟩]

/-- The interview loop of get_interview_graph (src/graph.py lines 31-47):
after each question/answer pair the conditional edge consults
route_messages; ask_question loops, save_interview leaves the loop with
the transcript, and a routing crash yields none. Fuel bounds the
recursion; the termination theorem shows fuel max_num_turns + 1 always
suffices. -/
def interviewLoop (maxNumTurns : Option Nat) (q a : Nat → String) :
    Nat → List Message → Option (List Message)
  | 0, _ => none
  | fuel + 1, ms =>
    let ms2 := interviewPair ms (q ms.length) (a ms.length)
    if route_messages ms2 maxNumTurns = some "ask_question" then
      interviewLoop maxNumTurns q a fuel ms2
    else if route_messages ms2 maxNumTurns = some "save_interview" then
      some ms2
    else
      none

/-- The opening transcript the Send of the outer graph seeds an interview
with (src/analysts.py lines 302-307): a single HumanMessage. -/
def interviewSeed (question : String) : List Message :=
  [⟨false, none,
    "So you said you were analyzing the following question: " ++ question ++ "?"⟩]

/-- Analyst persona (src/app/models.py). -/
structure Analyst where
  affiliation : String
  name : String
  role : String
  description : String
deriving DecidableEq

/-- One market theme with a confidence score (src/app/models.py). -/
structure Theme where
  theme : String
  confidence : ℚ
deriving DecidableEq

/-- The theme list produced by search_web_for_themes (src/app/models.py). -/
structure AnalystThemes where
  themes : List Theme
deriving DecidableEq

/-- The fields of the outer-graph state read by the fan-out router
(market, analysts and analyst_themes; src/models.py ResearchGraphState,
with the analyst_themes accumulator the router reads defined as in
src/app/models.py). -/
structure ResearchGraphState where
  market : Market
  max_analysts : Nat
  analysts : List Analyst
  sections : List String
  analyst_themes : AnalystThemes

/-- A langgraph Send: target node plus the child interview state seeded
with its analyst and opening message. -/
structure Send where
  node : String
  analyst : Analyst
  seedContent : String
deriving DecidableEq

/-- Return value of a langgraph conditional-edge router: either a stage
name or a list of Send objects for a dynamic fan-out. -/
inductive RouteDecision where
  | stage : String → RouteDecision
  | sends : List Send → RouteDecision
deriving DecidableEq

/-- Embedding of start_interviews_or_create_better_analysts
(src/analysts.py lines 287-310): the router inspects the theme list, not
the analyst list; with zero themes it routes back to
search_web_for_themes, and otherwise returns one Send per analyst in
state.analysts (an empty Send list when analysts is empty). -/
def start_interviews_or_create_better_analysts (s : ResearchGraphState) : RouteDecision :=
  if s.analyst_themes.themes.length = 0 then
    .stage "search_web_for_themes"
  else
    .sends (s.analysts.map (fun a =>
      ⟨"conduct_interview", a,
        "So you said you were analyzing the following question: "
          ++ s.market.question ++ "?"⟩))

/-- The float constant 0.10 of src/app/data_fetchers.py line 153, as the
rational one tenth (in constructor form so that comparisons reduce). -/
def oneTenth : ℚ :=
  ⟨1, 10, by norm_num, by norm_num⟩

/-- The float constant 0.90 of src/app/data_fetchers.py line 153. -/
def nineTenths : ℚ :=
  ⟨9, 10, by norm_num, by norm_num⟩

/-- The float constant 0.20 of src/data_fetchers.py line 73 (one fifth). -/
def oneFifth : ℚ :=
  ⟨1, 5, by norm_num, by norm_num⟩

/-- The float constant 0.80 of src/data_fetchers.py line 73 (four fifths). -/
def fourFifths : ℚ :=
  ⟨4, 5, by norm_num, by norm_num⟩

/-- The rational two fifths (an example outcome price of 0.40). -/
def twoFifths : ℚ :=
  ⟨2, 5, by norm_num, by norm_num⟩

/-- The rational three fifths (an example outcome price of 0.60). -/
def threeFifths : ℚ :=
  ⟨3, 5, by norm_num, by norm_num⟩

/-- The rational one half (an example outcome price of 0.50). -/
def oneHalf : ℚ :=
  ⟨1, 2, by norm_num, by norm_num⟩

/-- The rational nineteen twentieths (an example outcome price of 0.95). -/
def nineteenTwentieths : ℚ :=
  ⟨19, 20, by norm_num, by norm_num⟩

/-- The rational one twentieth (an example outcome price of 0.05). -/
def oneTwentieth : ℚ :=
  ⟨1, 20, by norm_num, by norm_num⟩

/-- The odds-band test of fetch_active_markets: yes odds are
outcome_prices[0] when the list is nonempty, else 0; no odds are
outcome_prices[1] when a second entry exists, else 0; both must lie
strictly inside (lo, hi). -/
def oddsInBand (lo hi : ℚ) (m : Market) : Bool :=
  let yes := m.outcome_prices.getD 0 0
  let no := m.outcome_prices.getD 1 0
  decide (lo < yes) && decide (yes < hi) && decide (lo < no) && decide (no < hi)

/-- The market-list filtering stage shared by the two fetch_active_markets
versions: drop markets whose conditionId carries an existing position,
keep markets whose odds lie strictly in the (lo, hi) band, then keep only
order-book-enabled markets. -/
def activeMarketBandFilter (lo hi : ℚ) (excluded : List String)
    (markets : List Market) : List Market :=
  ((markets.filter (fun m => !(excluded.contains m.condition_id))).filter
      (fun m => oddsInBand lo hi m)).filter
    (fun m => m.enable_order_book)

/-- Filtering performed by fetch_active_markets in src/app/data_fetchers.py
(lines 134-165) on the list of markets parsed from the provider response:
position exclusion, the strict (0.10, 0.90) odds band, then the
enable_order_book filter. -/
def fetch_active_markets_app (excluded : List String) (markets : List Market) :
    List Market :=
  activeMarketBandFilter oneTenth nineTenths excluded markets

/-- Filtering performed by fetch_active_markets in src/data_fetchers.py
(lines 43-84): no position exclusion, the strict (0.20, 0.80) odds band,
then the enable_order_book filter. -/
def fetch_active_markets_root (markets : List Market) : List Market :=
  activeMarketBandFilter oneFifth fourFifths [] markets

/-- A concrete market used to evaluate the claims on explicit inputs. -/
def exMarket : Market :=
  ⟨"511", "Will it rain in Paris tomorrow?", "Rain market", "0xc0ffee",
    ["Yes", "No"], [twoFifths, threeFifths], ["tok0", "tok1"], true⟩

/-- A concrete order (the external LLM response used in examples). -/
def exOrderDetails : OrderDetails :=
  ⟨⟨twoFifths, 375, "BUY", "tok0"⟩⟩

/-- A second LLM order response over the same trader state. -/
def exOrderDetailsAlt : OrderDetails :=
  ⟨⟨twoFifths, 100, "BUY", "tok0"⟩⟩

/-- An LLM order response whose notional size times price is below one
dollar. -/
def exOrderDetailsTiny : OrderDetails :=
  ⟨⟨oneHalf, 1, "BUY", "tok0"⟩⟩

/-- Concrete trader state with the given conviction. -/
def exTraderState (conviction : Int) : TraderState :=
  ⟨exMarket, ⟨0, conviction, "strong evidence of rain"⟩, [("USDC", 1000)],
    exOrderDetails⟩

/-- Concrete high-conviction trader state. -/
def exStateHigh : TraderState :=
  exTraderState 80

/-- Concrete low-conviction trader state. -/
def exStateLow : TraderState :=
  exTraderState 50

/-- A concrete venue response dict whose status field reports failure. -/
def exFailureResp : PyVal :=
  .pdict [("status", .pstr "failure"), ("errorMsg", .pstr "not enough balance")]

/-- A concrete transcript at the routing step: the seed HumanMessage, one
analyst question and one expert answer. -/
def exRouteMessages : List Message :=
  [⟨false, none, "So you said you were analyzing the following question: Will it rain in Paris tomorrow??"⟩,
   ⟨true, none, "I am Jordan, a meteorology analyst. What does the radar show?"⟩,
   ⟨true, some "expert", "The radar shows a large front arriving overnight [1]."⟩]

/-- A concrete analyst persona. -/
def exAnalyst : Analyst :=
  ⟨"Acme Research", "Jordan", "Meteorology analyst", "Tracks storm fronts"⟩

/-- Outer-graph state with a nonempty theme list and zero analysts: the
fan-out point declares zero children here. -/
def exStateNoAnalysts : ResearchGraphState :=
  ⟨exMarket, 3, [], [], ⟨[⟨"storm fronts", nineTenths⟩]⟩⟩

/-- Outer-graph state with a nonempty theme list and one analyst. -/
def exStateOneAnalyst : ResearchGraphState :=
  ⟨exMarket, 3, [exAnalyst], [], ⟨[⟨"storm fronts", nineTenths⟩]⟩⟩

/-- A market inside the (0.10, 0.90) band with order-book support. -/
def exMarketIn : Market :=
  exMarket

/-- A market outside both odds bands (yes odds 0.95). -/
def exMarketOut : Market :=
  ⟨"512", "Will the sun rise tomorrow?", "Sun market", "0xdecaf",
    ["Yes", "No"], [nineteenTwentieths, oneTwentieth], ["tok2", "tok3"], true⟩

/-- A market inside the band but with the order book disabled. -/
def exMarketNoBook : Market :=
  ⟨"513", "Will it snow in Oslo tomorrow?", "Snow market", "0xbeef",
    ["Yes", "No"], [oneHalf, oneHalf], ["tok4", "tok5"], false⟩

/-- A concrete in-range recommendation as validated by pydantic. -/
def exRecValid : Recommendation :=
  ⟨1, 88, "rain is likely given the incoming front"⟩

/-- Appending transcripts adds the expert-answer counts. -/
theorem countExpertAnswers_append (ms ns : List Message) :
    countExpertAnswers (ms ++ ns) = countExpertAnswers ms + countExpertAnswers ns := by
  simp [countExpertAnswers, List.filter_append]

/-- One question/answer pair adds exactly one expert answer: the question
is an unnamed AIMessage, the answer is the AIMessage named expert. -/
theorem countExpertAnswers_interviewPair (ms : List Message) (q a : String) :
    countExpertAnswers (interviewPair ms q a) = countExpertAnswers ms + 1 := by
  rw [interviewPair, countExpertAnswers_append]
  rfl

/-- After a question/answer pair is appended, messages[-2] is that
question. -/
theorem lastQuestion?_interviewPair (ms : List Message) (q a : String) :
    lastQuestion? (interviewPair ms q a) = some ⟨true, none, q⟩ := by
  simp [lastQuestion?, interviewPair]

/-- The amended C1 property: one uninterrupted execution of the
trade_execution node issues at most one order-submission call, and a
crash during submission followed by a resume doubles the count because
the pre-call checkpoint is unchanged. -/
theorem trade_execution_submission_not_marked (s : TraderState) (env : Option String) :
    venueSubmissionCalls s env ≤ 1 ∧
    venueCallsAcrossCrashResume s env = 2 * venueSubmissionCalls s env := by
  refine ⟨?_, ?_⟩
  · unfold venueSubmissionCalls tradeExecuteVenueCalls
    split <;> [skip; omega]
    split <;> omega
  · unfold venueCallsAcrossCrashResume
    omega

/-- C1 counterexample: with conviction 80 and TRADE_EXECUTION set to
true, a crash during submission followed by a resume issues two
order-submission calls, not at most one, because trade_execution writes
no submission-attempted marker to the checkpoint before the venue call. -/
theorem trade_execution_resubmits_after_crash_resume :
    75 ≤ exStateHigh.recommendation.conviction ∧
    tradeExecutionEnabled (some "true") = true ∧
    venueCallsAcrossCrashResume exStateHigh (some "true") = 2 ∧
    ¬ venueCallsAcrossCrashResume exStateHigh (some "true") ≤ 1 := by
  decide

/-- The amended C2 property: the order produced by trade_configuration is
exactly the OrderDetails returned by the external LLM call, independent
of the trader state, with no validation applied to it. -/
theorem trade_configuration_returns_llm_order (s t : TraderState) (llmOrder : OrderDetails) :
    trade_configuration s llmOrder = llmOrder ∧
    trade_configuration s llmOrder = trade_configuration t llmOrder :=
  ⟨rfl, rfl⟩

/-- C2 counterexample: on one and the same trader state (same conviction,
balance and price) two different LLM responses yield two different
orders, and an LLM response whose size times price is half a dollar is
propagated as the produced order. -/
theorem trade_configuration_not_deterministic_sizer :
    trade_configuration exStateHigh exOrderDetails ≠
      trade_configuration exStateHigh exOrderDetailsAlt ∧
    (trade_configuration exStateHigh exOrderDetailsTiny).order_args.size *
      (trade_configuration exStateHigh exOrderDetailsTiny).order_args.price < 1 := by
  refine ⟨by decide, ?_⟩
  show (1 : ℚ) * oneHalf < 1
  rw [one_mul]
  decide

/-- The amended C3 property: below conviction 75 the node issues no venue
call and records the success OrderResponse with the Low conviction
message; at or above 75 a submission is issued exactly when
TRADE_EXECUTION lowercased equals true. -/
theorem trade_execution_conviction_gate (s : TraderState) (env : Option String)
    (venue : Except String PyVal) :
    (s.recommendation.conviction < 75 →
      venueSubmissionCalls s env = 0 ∧
      trade_execution s env venue =
        OrderResponse.mk "success" (.pdict [("message", .pstr "Low conviction")])) ∧
    (75 ≤ s.recommendation.conviction →
      (tradeExecutionEnabled env = true → venueSubmissionCalls s env = 1) ∧
      (tradeExecutionEnabled env = false → venueSubmissionCalls s env = 0)) := by
  refine ⟨fun hlt => ⟨?_, ?_⟩, fun hge => ⟨fun he => ?_, fun he => ?_⟩⟩
  · unfold venueSubmissionCalls
    rw [if_neg (by omega)]
  · unfold trade_execution
    rw [if_neg (by omega)]
  · unfold venueSubmissionCalls tradeExecuteVenueCalls
    rw [if_pos hge, if_pos he]
  · unfold venueSubmissionCalls tradeExecuteVenueCalls
    rw [if_pos hge, if_neg (by simp [he])]

/-- Witness for the amended C3 property at conviction 50 and at
conviction 80 with TRADE_EXECUTION set to true. -/
theorem trade_execution_conviction_gate_witness :
    (venueSubmissionCalls exStateLow (some "true") = 0 ∧
      trade_execution exStateLow (some "true") (Except.ok (.pdict [])) =
        OrderResponse.mk "success" (.pdict [("message", .pstr "Low conviction")])) ∧
    venueSubmissionCalls exStateHigh (some "true") = 1 :=
  ⟨(trade_execution_conviction_gate exStateLow (some "true")
      (Except.ok (.pdict []))).1 (by decide),
   ((trade_execution_conviction_gate exStateHigh (some "true")
      (Except.ok (.pdict []))).2 (by decide)).1 (by decide)⟩

/-- C3 counterexample: conviction 80 passes the gate but no submission is
issued when TRADE_EXECUTION is the string false. -/
theorem high_conviction_without_submission :
    75 ≤ exStateHigh.recommendation.conviction ∧
    venueSubmissionCalls exStateHigh (some "false") = 0 := by
  decide

/-- Fuel bound for the interview loop: with enough fuel the loop always
reaches save_interview, and the number of expert answers in the final
transcript stays at or under the larger of one more than the starting
count and the turn ceiling. -/
theorem interviewLoop_bound (maxOpt : Option Nat) (q a : Nat → String) :
    ∀ (fuel : Nat) (ms : List Message), 1 ≤ fuel →
      maxOpt.getD 2 ≤ countExpertAnswers ms + fuel →
      ∃ out, interviewLoop maxOpt q a fuel ms = some out ∧
        (countExpertAnswers out = countExpertAnswers ms + 1 ∨
          countExpertAnswers out ≤ maxOpt.getD 2) := by
  intro fuel
  induction fuel with
  | zero =>
    intro ms h1 _
    exact absurd h1 (by omega)
  | succ f ih =>
    intro ms _ hfuel
    set ms2 := interviewPair ms (q ms.length) (a ms.length) with hms2
    have hcount : countExpertAnswers ms2 = countExpertAnswers ms + 1 :=
      countExpertAnswers_interviewPair ms (q ms.length) (a ms.length)
    have hlast : lastQuestion? ms2 = some ⟨true, none, q ms.length⟩ :=
      lastQuestion?_interviewPair ms (q ms.length) (a ms.length)
    by_cases hmt : maxOpt.getD 2 ≤ countExpertAnswers ms2
    · have hroute : route_messages ms2 maxOpt = some "save_interview" := by
        unfold route_messages
        rw [if_pos hmt]
      refine ⟨ms2, ?_, Or.inl hcount⟩
      simp only [interviewLoop, ← hms2, hroute]
      simp
    · by_cases hph : strContains (q ms.length) terminationPhrase = true
      · have hroute : route_messages ms2 maxOpt = some "save_interview" := by
          unfold route_messages
          rw [if_neg hmt, hlast]
          simp [hph]
        refine ⟨ms2, ?_, Or.inl hcount⟩
        simp only [interviewLoop, ← hms2, hroute]
        simp
      · have hroute : route_messages ms2 maxOpt = some "ask_question" := by
          unfold route_messages
          rw [if_neg hmt, hlast]
          simp [hph]
        obtain ⟨out, hout, hb⟩ := ih ms2 (by omega) (by omega)
        refine ⟨out, ?_, ?_⟩
        · simp only [interviewLoop, ← hms2, hroute]
          simp [hout]
        · rcases hb with hb | hb
          · exact Or.inr (by omega)
          · exact Or.inr hb

/-- C4: for every turn ceiling (max_num_turns, defaulting to 2 when the
state key is absent) and every sequence of question and answer texts,
the interview loop of get_interview_graph reaches save_interview, and
the transcript holds at most max_num_turns + 1 question/answer pairs,
whether or not the termination phrase ever appears. -/
theorem interview_loop_terminates_within_bound (maxOpt : Option Nat)
    (q a : Nat → String) (question : String) :
    ∃ out,
      interviewLoop maxOpt q a (maxOpt.getD 2 + 1) (interviewSeed question) = some out ∧
      countExpertAnswers out ≤ maxOpt.getD 2 + 1 := by
  have h0 : countExpertAnswers (interviewSeed question) = 0 := rfl
  obtain ⟨out, hout, hb⟩ :=
    interviewLoop_bound maxOpt q a (maxOpt.getD 2 + 1) (interviewSeed question)
      (by omega) (by omega)
  refine ⟨out, hout, ?_⟩
  rcases hb with hb | hb <;> omega

/-- C5: whenever route_messages returns at all, the returned stage name
is ask_question or save_interview, and it is save_interview exactly when
the expert-answer count has reached the turn ceiling (default 2) or the
question at messages[-2] contains the termination phrase. -/
theorem route_messages_returns_declared_stage (ms : List Message)
    (maxOpt : Option Nat) (r : String)
    (h : route_messages ms maxOpt = some r) :
    (r = "ask_question" ∨ r = "save_interview") ∧
    (r = "save_interview" ↔
      maxOpt.getD 2 ≤ countExpertAnswers ms ∨
      ∃ qm, lastQuestion? ms = some qm ∧
        strContains qm.content terminationPhrase = true) := by
  unfold route_messages at h
  by_cases hle : maxOpt.getD 2 ≤ countExpertAnswers ms
  · rw [if_pos hle] at h
    have hr : r = "save_interview" := by
      injection h with h
      exact h.symm
    subst hr
    exact ⟨Or.inr rfl, ⟨fun _ => Or.inl hle, fun _ => rfl⟩⟩
  · rw [if_neg hle] at h
    cases hq : lastQuestion? ms with
    | none =>
      rw [hq] at h
      exact absurd h (by simp)
    | some qm =>
      rw [hq] at h
      have h2 : (if strContains qm.content terminationPhrase = true then
          some "save_interview" else some "ask_question" : Option String) = some r := h
      by_cases hph : strContains qm.content terminationPhrase = true
      · rw [if_pos hph] at h2
        have hr : r = "save_interview" := by
          injection h2 with h2
          exact h2.symm
        subst hr
        exact ⟨Or.inr rfl, ⟨fun _ => Or.inr ⟨qm, rfl, hph⟩, fun _ => rfl⟩⟩
      · rw [if_neg hph] at h2
        have hr : r = "ask_question" := by
          injection h2 with h2
          exact h2.symm
        subst hr
        refine ⟨Or.inl rfl, ⟨fun hcontra => absurd hcontra (by decide), fun hrhs => ?_⟩⟩
        rcases hrhs with hcase | ⟨qm2, hq2, hph2⟩
        · exact absurd hcase hle
        · injection hq2 with e
          subst e
          exact absurd hph2 hph

/-- Witness for C5 on a concrete three-message transcript with one expert
answer and no termination phrase: the router loops back to ask_question. -/
theorem route_messages_returns_declared_stage_witness :
    ("ask_question" = "ask_question" ∨ "ask_question" = "save_interview") ∧
    ("ask_question" = "save_interview" ↔
      (none : Option Nat).getD 2 ≤ countExpertAnswers exRouteMessages ∨
      ∃ qm, lastQuestion? exRouteMessages = some qm ∧
        strContains qm.content terminationPhrase = true) :=
  route_messages_returns_declared_stage exRouteMessages none "ask_question" (by decide)

/-- The amended C6 property: the fan-out router takes the regenerate edge
exactly when the theme list is empty; with nonempty themes it returns
one Send per analyst in state.analysts, which is an empty fan-out when
the analyst list is empty. -/
theorem fan_out_router_branches_on_themes (s : ResearchGraphState) :
    (start_interviews_or_create_better_analysts s =
        RouteDecision.stage "search_web_for_themes" ↔
      s.analyst_themes.themes = []) ∧
    (s.analyst_themes.themes ≠ [] →
      start_interviews_or_create_better_analysts s =
        RouteDecision.sends (s.analysts.map (fun a =>
          ⟨"conduct_interview", a,
            "So you said you were analyzing the following question: "
              ++ s.market.question ++ "?"⟩))) := by
  unfold start_interviews_or_create_better_analysts
  by_cases hth : s.analyst_themes.themes.length = 0
  · rw [if_pos hth]
    refine ⟨⟨fun _ => List.length_eq_zero.mp hth, fun _ => rfl⟩, fun hne => ?_⟩
    exact absurd (List.length_eq_zero.mp hth) hne
  · rw [if_neg hth]
    refine ⟨⟨fun hcontra => absurd hcontra (by simp), fun he => ?_⟩, fun _ => rfl⟩
    exact absurd (by rw [he]; rfl) hth

/-- Witness for the amended C6 property on a state with one theme and one
analyst: the router fans out to conduct_interview rather than taking
the regenerate edge. -/
theorem fan_out_router_branches_on_themes_witness :
    (start_interviews_or_create_better_analysts exStateOneAnalyst =
        RouteDecision.stage "search_web_for_themes" ↔
      exStateOneAnalyst.analyst_themes.themes = []) ∧
    start_interviews_or_create_better_analysts exStateOneAnalyst =
      RouteDecision.sends (exStateOneAnalyst.analysts.map (fun a =>
        ⟨"conduct_interview", a,
          "So you said you were analyzing the following question: "
            ++ exStateOneAnalyst.market.question ++ "?"⟩)) :=
  ⟨(fan_out_router_branches_on_themes exStateOneAnalyst).1,
   (fan_out_router_branches_on_themes exStateOneAnalyst).2 (by decide)⟩

/-- C6 counterexample: a reachable state with zero analysts and a
nonempty theme list is routed to an empty fan-out (an empty Send list),
not to the regenerate-analysts edge. -/
theorem zero_analysts_fanout_not_redirected :
    exStateNoAnalysts.analysts.length = 0 ∧
    start_interviews_or_create_better_analysts exStateNoAnalysts =
      RouteDecision.sends [] ∧
    start_interviews_or_create_better_analysts exStateNoAnalysts ≠
      RouteDecision.stage "search_web_for_themes" := by
  decide

/-- C7: the pydantic validation of the Recommendation model lets only an
outcome index of 0 or 1 and a conviction within 0 to 100 into the run
state; any out-of-range pair proposed by the upstream structured-output
call is rejected (ValidationError), never propagated. -/
theorem recommendation_validated_ranges (oi c : Int) (rs : String) :
    (∀ r, write_recommendation (oi, c, rs) = some r →
      (r.outcome_index = 0 ∨ r.outcome_index = 1) ∧
      0 ≤ r.conviction ∧ r.conviction ≤ 100) ∧
    (¬ (0 ≤ oi ∧ oi ≤ 1 ∧ 0 ≤ c ∧ c ≤ 100) →
      write_recommendation (oi, c, rs) = none) := by
  constructor
  · intro r h
    unfold write_recommendation Recommendation.validate at h
    by_cases hv : 0 ≤ oi ∧ oi ≤ 1 ∧ 0 ≤ c ∧ c ≤ 100
    · rw [if_pos hv] at h
      have h2 : (some ⟨oi, c, rs⟩ : Option Recommendation) = some r := h
      injection h2 with h2
      have e1 : r.outcome_index = oi := by rw [← h2]
      have e2 : r.conviction = c := by rw [← h2]
      exact ⟨by omega, by omega, by omega⟩
    · rw [if_neg hv] at h
      cases h
  · intro hv
    unfold write_recommendation Recommendation.validate
    rw [if_neg hv]

/-- Witness for C7: the in-range pair (1, 88) is accepted with fields in
range, and the out-of-range pair (2, 150) is rejected. -/
theorem recommendation_validated_ranges_witness :
    ((exRecValid.outcome_index = 0 ∨ exRecValid.outcome_index = 1) ∧
      0 ≤ exRecValid.conviction ∧ exRecValid.conviction ≤ 100) ∧
    write_recommendation (2, 150, "overconfident") = none :=
  ⟨(recommendation_validated_ranges 1 88
      "rain is likely given the incoming front").1 exRecValid (by decide),
   (recommendation_validated_ranges 2 150 "overconfident").2 (by decide)⟩

/-- Membership in the market-filter pipeline unpacked: a market survives
exactly when it came from the provider list, carries no existing
position, passes the odds band and has the order book enabled. -/
theorem mem_activeMarketBandFilter (lo hi : ℚ) (excluded : List String)
    (markets : List Market) (m : Market) :
    m ∈ activeMarketBandFilter lo hi excluded markets ↔
      m ∈ markets ∧ excluded.contains m.condition_id = false ∧
      oddsInBand lo hi m = true ∧ m.enable_order_book = true := by
  unfold activeMarketBandFilter
  simp only [List.mem_filter, Bool.not_eq_true']
  constructor
  · rintro ⟨⟨⟨hm, hexc⟩, hband⟩, hbook⟩
    exact ⟨hm, hexc, hband, hbook⟩
  · rintro ⟨hm, hexc, hband, hbook⟩
    exact ⟨⟨⟨hm, hexc⟩, hband⟩, hbook⟩

/-- The boolean odds-band test unpacked into the four strict comparisons. -/
theorem oddsInBand_eq_true (lo hi : ℚ) (m : Market) :
    oddsInBand lo hi m = true ↔
      lo < m.outcome_prices.getD 0 0 ∧ m.outcome_prices.getD 0 0 < hi ∧
      lo < m.outcome_prices.getD 1 0 ∧ m.outcome_prices.getD 1 0 < hi := by
  unfold oddsInBand
  simp [and_assoc]

/-- C8: every market returned by the fetch_active_markets filtering has
both outcome prices strictly inside the configured band and the order
book enabled, and any market violating either condition is excluded; in
src/app/data_fetchers.py the band is (0.10, 0.90), in
src/data_fetchers.py it is (0.20, 0.80). -/
theorem fetch_active_markets_band_and_book (excluded : List String)
    (markets : List Market) (m : Market) :
    (m ∈ fetch_active_markets_app excluded markets →
      oneTenth < m.outcome_prices.getD 0 0 ∧ m.outcome_prices.getD 0 0 < nineTenths ∧
      oneTenth < m.outcome_prices.getD 1 0 ∧ m.outcome_prices.getD 1 0 < nineTenths ∧
      m.enable_order_book = true) ∧
    (oddsInBand oneTenth nineTenths m = false ∨ m.enable_order_book = false →
      m ∉ fetch_active_markets_app excluded markets) ∧
    (m ∈ fetch_active_markets_root markets →
      oneFifth < m.outcome_prices.getD 0 0 ∧ m.outcome_prices.getD 0 0 < fourFifths ∧
      oneFifth < m.outcome_prices.getD 1 0 ∧ m.outcome_prices.getD 1 0 < fourFifths ∧
      m.enable_order_book = true) ∧
    (oddsInBand oneFifth fourFifths m = false ∨ m.enable_order_book = false →
      m ∉ fetch_active_markets_root markets) := by
  refine ⟨fun hm => ?_, fun hviol hm => ?_, fun hm => ?_, fun hviol hm => ?_⟩
  · obtain ⟨-, -, hband, hbook⟩ :=
      (mem_activeMarketBandFilter oneTenth nineTenths excluded markets m).mp hm
    obtain ⟨h1, h2, h3, h4⟩ := (oddsInBand_eq_true oneTenth nineTenths m).mp hband
    exact ⟨h1, h2, h3, h4, hbook⟩
  · obtain ⟨-, -, hband, hbook⟩ :=
      (mem_activeMarketBandFilter oneTenth nineTenths excluded markets m).mp hm
    rcases hviol with hviol | hviol
    · rw [hband] at hviol
      cases hviol
    · rw [hbook] at hviol
      cases hviol
  · obtain ⟨-, -, hband, hbook⟩ :=
      (mem_activeMarketBandFilter oneFifth fourFifths [] markets m).mp hm
    obtain ⟨h1, h2, h3, h4⟩ := (oddsInBand_eq_true oneFifth fourFifths m).mp hband
    exact ⟨h1, h2, h3, h4, hbook⟩
  · obtain ⟨-, -, hband, hbook⟩ :=
      (mem_activeMarketBandFilter oneFifth fourFifths [] markets m).mp hm
    rcases hviol with hviol | hviol
    · rw [hband] at hviol
      cases hviol
    · rw [hbook] at hviol
      cases hviol

/-- Witness for C8 on a concrete three-market provider list: the in-band
order-book market is returned with its prices strictly inside (0.10,
0.90), and the out-of-band market is excluded. -/
theorem fetch_active_markets_band_and_book_witness :
    (oneTenth < exMarketIn.outcome_prices.getD 0 0 ∧
      exMarketIn.outcome_prices.getD 0 0 < nineTenths ∧
      oneTenth < exMarketIn.outcome_prices.getD 1 0 ∧
      exMarketIn.outcome_prices.getD 1 0 < nineTenths ∧
      exMarketIn.enable_order_book = true) ∧
    exMarketOut ∉ fetch_active_markets_app [] [exMarketIn, exMarketOut, exMarketNoBook] :=
  ⟨(fetch_active_markets_band_and_book []
      [exMarketIn, exMarketOut, exMarketNoBook] exMarketIn).1 (by decide),
   (fetch_active_markets_band_and_book []
      [exMarketIn, exMarketOut, exMarketNoBook] exMarketOut).2.1 (Or.inl (by decide))⟩

/-- C9: on the execution path (conviction at least 75, TRADE_EXECUTION
enabled), a venue response dict whose status field is failure still
yields a returned OrderResponse with status success (the locally
computed failure status is only printed), and a raised exception is the
only way the returned status is failure. -/
theorem trade_execution_masks_failure_status (s : TraderState)
    (env : Option String) (resp : PyVal)
    (hc : 75 ≤ s.recommendation.conviction)
    (henv : tradeExecutionEnabled env = true)
    (hst : resp.get "status" = some (PyVal.pstr "failure")) :
    localPrintedStatus resp = "failure" ∧
    trade_execution s env (Except.ok resp) = OrderResponse.mk "success" resp ∧
    ∀ e, trade_execution s env (Except.error e) =
      OrderResponse.mk "failure" (PyVal.pdict [("failure", PyVal.pstr e)]) := by
  obtain ⟨v, hv⟩ : ∃ v, env = some v := by
    cases env with
    | none => exact absurd henv (by simp [tradeExecutionEnabled])
    | some v => exact ⟨v, rfl⟩
  subst hv
  have henv2 : (pyLower v == "true") = true := henv
  have hdict : resp.isDict = true := by
    cases resp with
    | pstr s => exact absurd hst (by simp [PyVal.get])
    | pOrderResponse a b => exact absurd hst (by simp [PyVal.get])
    | pdict entries => rfl
  refine ⟨?_, ?_, fun e => ?_⟩
  · unfold localPrintedStatus
    rw [if_pos]
    rw [hdict, hst]
    decide
  · have hte : _trade_execute (some v) (Except.ok resp) = Except.ok resp := by
      simp only [_trade_execute]
      rw [if_pos henv2]
    unfold trade_execution
    rw [if_pos hc, hte]
  · have hte : _trade_execute (some v) (Except.error e) = Except.error e := by
      simp only [_trade_execute]
      rw [if_pos henv2]
    unfold trade_execution
    rw [if_pos hc, hte]

/-- Witness for C9 at conviction 80 with TRADE_EXECUTION set to true and
a concrete failure-status venue response. -/
theorem trade_execution_masks_failure_status_witness :
    localPrintedStatus exFailureResp = "failure" ∧
    trade_execution exStateHigh (some "true") (Except.ok exFailureResp) =
      OrderResponse.mk "success" exFailureResp ∧
    trade_execution exStateHigh (some "true") (Except.error "timeout") =
      OrderResponse.mk "failure" (PyVal.pdict [("failure", PyVal.pstr "timeout")]) :=
  ⟨(trade_execution_masks_failure_status exStateHigh (some "true") exFailureResp
      (by decide) (by decide) rfl).1,
   (trade_execution_masks_failure_status exStateHigh (some "true") exFailureResp
      (by decide) (by decide) rfl).2.1,
   (trade_execution_masks_failure_status exStateHigh (some "true") exFailureResp
      (by decide) (by decide) rfl).2.2 "timeout"⟩

/-- The amended C10 property: no order-submission call is issued unless
TRADE_EXECUTION is set and lowercases to true; when it is set to any
other value _trade_execute returns the success response carrying the
Trade execution disabled message without touching the venue; when it is
unset, the lookup returns None and _trade_execute raises an
AttributeError instead of returning the disabled response. -/
theorem trade_execute_env_guard (env : Option String) (venue : Except String PyVal) :
    (tradeExecutionEnabled env = false → tradeExecuteVenueCalls env = 0) ∧
    (∀ v, env = some v → tradeExecutionEnabled env = false →
      _trade_execute env venue = Except.ok disabledTradeDict) ∧
    (env = none →
      _trade_execute env venue =
        Except.error "AttributeError: NoneType object has no attribute lower") := by
  refine ⟨fun hoff => ?_, fun v hv hoff => ?_, fun hnone => ?_⟩
  · unfold tradeExecuteVenueCalls
    rw [hoff]
    rfl
  · subst hv
    have hne : (pyLower v == "true") = false := hoff
    simp only [_trade_execute]
    rw [if_neg (by simp [hne])]
  · subst hnone
    rfl

/-- Witness for the amended C10 property with TRADE_EXECUTION set to
false and with it unset. -/
theorem trade_execute_env_guard_witness :
    tradeExecuteVenueCalls (some "false") = 0 ∧
    _trade_execute (some "false") (Except.ok (PyVal.pdict [])) =
      Except.ok disabledTradeDict ∧
    _trade_execute none (Except.ok (PyVal.pdict [])) =
      Except.error "AttributeError: NoneType object has no attribute lower" :=
  ⟨(trade_execute_env_guard (some "false") (Except.ok (PyVal.pdict []))).1 (by decide),
   (trade_execute_env_guard (some "false") (Except.ok (PyVal.pdict []))).2.1
     "false" rfl (by decide),
   (trade_execute_env_guard none (Except.ok (PyVal.pdict []))).2.2 rfl⟩

/-- C10 counterexample: with TRADE_EXECUTION unset, _trade_execute does
not return the disabled-trading success response; it raises (no venue
call is made either). -/
theorem unset_env_raises_not_disabled :
    tradeExecuteVenueCalls none = 0 ∧
    _trade_execute none (Except.ok (PyVal.pdict [])) =
      Except.error "AttributeError: NoneType object has no attribute lower" ∧
    _trade_execute none (Except.ok (PyVal.pdict [])) ≠ Except.ok disabledTradeDict :=
  ⟨rfl, rfl, fun h => nomatch h⟩
